import Mathlib

/-!
Verification of the external-editor round-trip in
`src/qutebrowser/browser/curcommand.py` (`editor`, `_editor_cleanup`,
`on_editor_closed`, `on_editor_error`).

The OS is modelled explicitly: a set of open file descriptors, a list of
existing files with their contents, and a set of filenames whose removal is
denied (raising `PermissionError`).  Python exceptions are modelled as an
`Option PyError` outcome returned next to the post-state, since a raised
exception does not roll back side effects already performed.

Text is modelled as `List Char` (the decoded character stream of a
text-mode file).
-/

set_option autoImplicit false

/-- Python exception values relevant to the editor bridge. -/
inductive PyError where
  /-- `CommandError(msg)` raised by the command layer. -/
  | commandError (msg : String)
  /-- `PermissionError` from `os.remove`. -/
  | permissionError
  /-- `FileNotFoundError` from `os.remove` or `open` on a missing file. -/
  | fileNotFoundError
  /-- `OSError` (EBADF) from `os.close` on a closed descriptor. -/
  | badFileDescriptor
  /-- `KeyError` from a dict lookup with a missing key. -/
  | keyError
  /-- An I/O error raised while writing the temp file. -/
  | writeFailure
  /-- `IndexError` from indexing an empty list. -/
  | indexError
deriving DecidableEq

/-- The OS state visible to the editor bridge: open file descriptors,
existing files with their contents, and filenames whose deletion the OS
denies with a permission error. -/
structure OSState where
  openFds : Finset Nat
  files : List (List Char × List Char)
  denyRemove : List (List Char)
deriving DecidableEq

/-- Look up the content of a file by name. -/
def lookupFile : List (List Char × List Char) → List Char → Option (List Char)
  | [], _ => none
  | (n, c) :: rest, name => if n = name then some c else lookupFile rest name

/-- Remove a file entry by name. -/
def removeFileEntry (fs : List (List Char × List Char)) (name : List Char) :
    List (List Char × List Char) :=
  fs.filter (fun p => p.1 ≠ name)

/-- `os.close(fd)`: closes an open descriptor, raises `OSError` (EBADF) on a
descriptor that is not open.  On error the state is unchanged. -/
def osClose (st : OSState) (fd : Nat) : Except PyError OSState :=
  if fd ∈ st.openFds then
    Except.ok { st with openFds := st.openFds.erase fd }
  else
    Except.error PyError.badFileDescriptor

/-- `os.remove(name)`: deletes an existing file; raises `PermissionError`
when the OS denies the deletion, `FileNotFoundError` when the file does not
exist.  On error the state is unchanged. -/
def osRemove (st : OSState) (name : List Char) : Except PyError OSState :=
  if (lookupFile st.files name).isSome then
    if name ∈ st.denyRemove then Except.error PyError.permissionError
    else Except.ok { st with files := removeFileEntry st.files name }
  else
    Except.error PyError.fileNotFoundError

/-- `CurCommandDispatcher._editor_cleanup(oshandle, filename)`:

    os.close(oshandle)
    try:
        os.remove(filename)
    except PermissionError:
        raise CommandError("Failed to delete tempfile...")

Returns the post-state together with the raised exception, if any.  Only
`PermissionError` is converted to a `CommandError`; any other exception
(including the `OSError` from `os.close`) propagates unchanged. -/
def editorCleanup (oshandle : Nat) (filename : List Char) (st : OSState) :
    OSState × Option PyError :=
  match osClose st oshandle with
  | Except.error e => (st, some e)
  | Except.ok st1 =>
    match osRemove st1 filename with
    | Except.ok st2 => (st2, none)
    | Except.error PyError.permissionError =>
        (st1, some (PyError.commandError "Failed to delete tempfile..."))
    | Except.error e => (st1, some e)

/-- `f.readlines()` on a text-mode file whose decoded content is `s`: the
list of lines, each keeping its trailing newline, the last one possibly
without one.  The empty file yields the empty list. -/
def readlines (s : List Char) : List (List Char) :=
  match s with
  | [] => []
  | c :: rest =>
    match readlines rest with
    | [] => [[c]]
    | l :: ls =>
      if c = Char.ofNat 10 then [c] :: l :: ls else (c :: l) :: ls

/-- `''.join(lines)`. -/
def joinLines (ls : List (List Char)) : List Char := ls.flatten

/-- Reading the file's entire contents as one string (`f.read()`), stated on
the decoded character stream: the identity.  This is the spec side of the
read-back equivalence. -/
def readFullContents (s : List Char) : List Char := s

/-- The backslash character. -/
def bslash : Char := Char.ofNat 92

/-- The single-quote character. -/
def squote : Char := Char.ofNat 39

/-- The newline character. -/
def nlChar : Char := Char.ofNat 10

/-- Modelled from the spec: `webelem.javascript_escape` is imported by
`curcommand.py` but its module is not part of the reviewed source.  Per the
spec it "escapes the text for safe injection into the element", "neutralizing
any characters that could terminate the injection context" of the
single-quoted Javascript string literal in `"this.value='{}'"`: the
backslash, the single quote and the newline are backslash-escaped. -/
def javascript_escape : List Char → List Char
  | [] => []
  | c :: rest =>
    if c = bslash then bslash :: bslash :: javascript_escape rest
    else if c = squote then bslash :: squote :: javascript_escape rest
    else if c = nlChar then bslash :: Char.ofNat 110 :: javascript_escape rest
    else c :: javascript_escape rest

/-- The character denoted by `\c` in a Javascript string literal: `\n` is the
newline; any other escaped character denotes itself (covers `\\` and `\'`). -/
def jsUnescapeChar (c : Char) : Char :=
  if c = Char.ofNat 110 then nlChar else c

/-- Interpretation of the body of a single-quoted Javascript string literal:
the string value it denotes, or `none` when the body would terminate the
injection context early (an unescaped single quote), end in a dangling
backslash, or contain a literal newline (a syntax error in the literal). -/
def jsStringBody : List Char → Option (List Char)
  | [] => some []
  | c :: rest =>
    if c = bslash then
      match rest with
      | [] => none
      | d :: rest1 => (jsStringBody rest1).map (fun l => jsUnescapeChar d :: l)
    else if c = squote ∨ c = nlChar then none
    else (jsStringBody rest).map (fun l => c :: l)

/-- A page element reference: `isNull` models `elem.isNull()` (a vanished
element), `value` the text content `this.value`. -/
structure Element where
  isNull : Bool
  value : List Char
deriving DecidableEq

/-- `elem.evaluateJavaScript("this.value='" + body + "'")`: when the literal
body parses, the element's value becomes the denoted string; when the
injection context is broken the assignment is not the intended one and the
value is left unmodelled (kept unchanged here; the round-trip theorem shows
the escaped body always parses). -/
def evaluateJSSetValue (e : Element) (body : List Char) : Element :=
  match jsStringBody body with
  | some v => { e with value := v }
  | none => e

/-- The state an edit session acts on: the OS state plus the target element. -/
structure SessionState where
  os : OSState
  elem : Element
deriving DecidableEq

/-- `QProcess::ExitStatus`. -/
inductive ExitStatus where
  | normalExit
  | crashExit
deriving DecidableEq

/-- `CurCommandDispatcher.on_editor_closed(elem, oshandle, filename,
exitcode, exitstatus)`:

    if exitcode != 0:
        raise CommandError("Editor did quit abnormally (status {})!"...)
    if exitstatus != QProcess.NormalExit:
        # No error here, since we already handle this in on_editor_error
        return
    if elem.isNull():
        raise CommandError("Element vanished while editing!")
    with open(filename, 'r', encoding='utf-8') as f:
        text = ''.join(f.readlines())
        text = webelem.javascript_escape(text)
    elem.evaluateJavaScript("this.value='\x7b\x7d'".format(text))
    self._editor_cleanup(oshandle, filename)

Returns the post-state and the raised exception, if any. -/
def on_editor_closed (oshandle : Nat) (filename : List Char)
    (exitcode : Int) (exitstatus : ExitStatus) (st : SessionState) :
    SessionState × Option PyError :=
  if exitcode ≠ 0 then
    (st, some (PyError.commandError
      ("Editor did quit abnormally (status " ++ toString exitcode ++ ")!")))
  else if exitstatus ≠ ExitStatus.normalExit then
    (st, none)
  else if st.elem.isNull then
    (st, some (PyError.commandError "Element vanished while editing!"))
  else
    match lookupFile st.os.files filename with
    | none => (st, some PyError.fileNotFoundError)
    | some content =>
      let text := joinLines (readlines content)
      let escaped := javascript_escape text
      let elem1 := evaluateJSSetValue st.elem escaped
      let cleanup := editorCleanup oshandle filename st.os
      ({ os := cleanup.1, elem := elem1 }, cleanup.2)

/-- The `messages` dict of `on_editor_error`, keyed by the `QProcess`
process-error enum values (FailedToStart = 0, Crashed = 1, Timedout = 2,
ReadError = 3, WriteError = 4, UnknownError = 5); a lookup with any other
key raises `KeyError`. -/
def qprocessMessage (error : Nat) : Option String :=
  if error = 0 then some "The process failed to start."
  else if error = 1 then some "The process crashed."
  else if error = 2 then some "The last waitFor...() function timed out."
  else if error = 4 then
    some "An error occurred when attempting to write to the process."
  else if error = 3 then
    some "An error occurred when attempting to read from the process."
  else if error = 5 then some "An unknown error occurred."
  else none

/-- `CurCommandDispatcher.on_editor_error(oshandle, filename, error)`:

    messages = { ... six QProcess error kinds ... }
    self._editor_cleanup(oshandle, filename)
    raise CommandError("Error while calling editor: {}".format(
        messages[error]))

Cleanup runs first; an exception from cleanup propagates and the message is
never produced.  Otherwise the dict lookup happens (raising `KeyError` on an
unknown kind) and the `CommandError` is raised. -/
def on_editor_error (oshandle : Nat) (filename : List Char) (error : Nat)
    (st : OSState) : OSState × Option PyError :=
  match editorCleanup oshandle filename st with
  | (st1, some e) => (st1, some e)
  | (st1, none) =>
    match qprocessMessage error with
    | some msg =>
        (st1, some (PyError.commandError ("Error while calling editor: " ++ msg)))
    | none => (st1, some PyError.keyError)

/-- The opening-brace character of the `'\x7b\x7d'` placeholder. -/
def obrace : Char := Char.ofNat 123

/-- The closing-brace character of the `'\x7b\x7d'` placeholder. -/
def cbrace : Char := Char.ofNat 125

/-- The placeholder token substituted with the temp-file path. -/
def placeholder : List Char := [obrace, cbrace]

/-- Python `arg.replace('\x7b\x7d', filename)`: every non-overlapping
occurrence of the two-character placeholder, scanned left to right, is
replaced by `fn`. -/
def replacePlaceholder (fn : List Char) : List Char → List Char
  | [] => []
  | [c] => [c]
  | c :: d :: rest =>
    if c = obrace ∧ d = cbrace then fn ++ replacePlaceholder fn rest
    else c :: replacePlaceholder fn (d :: rest)

/-- Decomposition of a string at the non-overlapping, left-to-right
occurrences of the placeholder: the pieces between occurrences. -/
def splitPlaceholder : List Char → List (List Char)
  | [] => [[]]
  | [c] => [[c]]
  | c :: d :: rest =>
    if c = obrace ∧ d = cbrace then [] :: splitPlaceholder rest
    else
      match splitPlaceholder (d :: rest) with
      | [] => [[c]]
      | p :: ps => (c :: p) :: ps

/-- Join a list of pieces with a separator between consecutive pieces. -/
def intercalateP (sep : List Char) : List (List Char) → List Char
  | [] => []
  | [p] => p
  | p :: q :: rest => p ++ sep ++ intercalateP sep (q :: rest)

/-- Effect of `mkstemp(text=True)` when it returns `(oshandle, filename)`:
the descriptor is open and the (empty) file exists. -/
def mkstempEffect (st : OSState) (oshandle : Nat) (filename : List Char) :
    OSState :=
  { st with
      openFds := insert oshandle st.openFds
      files := (filename, []) :: removeFileEntry st.files filename }

/-- Write `text` as the content of `filename` (Python `open(filename, 'w')`
plus `f.write(text)` on success). -/
def writeFileContent (st : OSState) (filename : List Char) (text : List Char) :
    OSState :=
  { st with files := (filename, text) :: removeFileEntry st.files filename }

/-- Outcome of one call to `editor()`: the OS post-state, the spawned
process (executable and argument list) when `proc.start` was reached, and
the raised exception, if any. -/
structure EditorRun where
  os : OSState
  spawned : Option (List Char × List (List Char))
  err : Option PyError
deriving DecidableEq

/-- `CurCommandDispatcher.editor()`:

    elem = frame.findFirstElement(...editable_focused...)
    if elem.isNull():
        raise CommandError("No editable element focused!")
    oshandle, filename = mkstemp(text=True)
    text = elem.evaluateJavaScript('this.value')
    if text:
        with open(filename, 'w', encoding='utf-8') as f:
            f.write(text)
    proc = QProcess(self)
    ...
    editor = config.get('general', 'editor')
    executable = editor[0]
    args = [arg.replace('\x7b\x7d', filename) for arg in editor[1:]]
    proc.start(executable, args)

Environment parameters: `focusedText` is `none` when no editable element is
focused, otherwise the element's text; `writeFails` makes `f.write` raise;
`oshandle`/`filename` are what `mkstemp` returns and `wfd` is the descriptor
`open(filename, 'w')` uses inside the `with` block (closed when the block is
left, also on the exception path); `editorCfg` is the configured editor
list. -/
def editor (focusedText : Option (List Char)) (writeFails : Bool)
    (oshandle wfd : Nat) (filename : List Char)
    (editorCfg : List (List Char)) (st : OSState) : EditorRun :=
  match focusedText with
  | none =>
      { os := st, spawned := none
        err := some (PyError.commandError "No editable element focused!") }
  | some text =>
    let st1 := mkstempEffect st oshandle filename
    let afterWrite : OSState × Option PyError :=
      if text ≠ [] then
        let st2 := { st1 with openFds := insert wfd st1.openFds }
        if writeFails then
          ({ st2 with openFds := st2.openFds.erase wfd },
           some PyError.writeFailure)
        else
          let st3 := writeFileContent st2 filename text
          ({ st3 with openFds := st3.openFds.erase wfd }, none)
      else (st1, none)
    match afterWrite with
    | (stw, some e) => { os := stw, spawned := none, err := some e }
    | (stw, none) =>
      match editorCfg with
      | [] => { os := stw, spawned := none, err := some PyError.indexError }
      | exe :: argTemplates =>
        { os := stw
          spawned := some (exe, argTemplates.map (replacePlaceholder filename))
          err := none }

/-- A sample temp-file name. -/
def fnA : List Char := ['t', 'm', 'p']

/-- A sample temp-file content containing a single quote, a backslash and a
newline. -/
def tA : List Char := ['a', squote, bslash, nlChar, 'b']

/-- A sample OS state: descriptor 5 open, the temp file present with
content `tA`, deletion permitted. -/
def osA : OSState := { openFds := {5}, files := [(fnA, tA)], denyRemove := [] }

/-- `osA` with deletion of the temp file denied by the OS. -/
def osDeny : OSState :=
  { openFds := {5}, files := [(fnA, tA)], denyRemove := [fnA] }

/-- A sample valid (non-null) element. -/
def elemA : Element := { isNull := false, value := ['x'] }

/-- A sample session over `osA` with a valid element. -/
def sessA : SessionState := { os := osA, elem := elemA }

/-- A sample session over `osDeny` with a valid element. -/
def sessDeny : SessionState := { os := osDeny, elem := elemA }

/-- The empty OS state, before `editor()` runs. -/
def osEmpty : OSState := { openFds := ∅, files := [], denyRemove := [] }

theorem joinLines_readlines (s : List Char) :
    joinLines (readlines s) = readFullContents s := by
  induction s with
  | nil => rfl
  | cons c rest ih =>
    unfold readlines
    match h : readlines rest with
    | [] =>
      rw [h] at ih
      simp [joinLines, readFullContents] at ih ⊢
      simp [← ih]
    | l :: ls =>
      rw [h] at ih
      by_cases hc : c = Char.ofNat 10 <;>
        simp [hc, joinLines, readFullContents] at ih ⊢ <;> simp [ih]

theorem jsStringBody_javascript_escape (l : List Char) :
    jsStringBody (javascript_escape l) = some l := by
  have hb : bslash ≠ Char.ofNat 110 := by decide
  have hs : squote ≠ Char.ofNat 110 := by decide
  induction l with
  | nil => rfl
  | cons c rest ih =>
    by_cases h1 : c = bslash
    · simp [javascript_escape, h1, jsStringBody, ih, jsUnescapeChar, hb]
    · by_cases h2 : c = squote
      · simp [javascript_escape, h1, h2, jsStringBody, ih, jsUnescapeChar, hs]
      · by_cases h3 : c = nlChar
        · simp [javascript_escape, h1, h2, h3, jsStringBody, ih, jsUnescapeChar]
        · simp only [javascript_escape, if_neg h1, if_neg h2, if_neg h3]
          unfold jsStringBody
          simp [h1, h2, h3, ih]

theorem splitPlaceholder_ne_nil : ∀ s : List Char, splitPlaceholder s ≠ []
  | [] => by simp [splitPlaceholder]
  | [c] => by simp [splitPlaceholder]
  | c :: d :: rest => by
    have ih := splitPlaceholder_ne_nil (d :: rest)
    unfold splitPlaceholder
    by_cases h : c = obrace ∧ d = cbrace
    · simp [h]
    · simp only [if_neg h]
      cases hm : splitPlaceholder (d :: rest) with
      | nil => exact absurd hm ih
      | cons p ps => simp

theorem intercalateP_cons_head (sep p : List Char) (c : Char)
    (ps : List (List Char)) :
    intercalateP sep ((c :: p) :: ps) = c :: intercalateP sep (p :: ps) := by
  cases ps with
  | nil => rfl
  | cons q qs => simp [intercalateP]

theorem replacePlaceholder_eq_intercalateP (fn : List Char) :
    ∀ s : List Char,
      replacePlaceholder fn s = intercalateP fn (splitPlaceholder s)
  | [] => rfl
  | [c] => rfl
  | c :: d :: rest => by
    by_cases h : c = obrace ∧ d = cbrace
    · have ih := replacePlaceholder_eq_intercalateP fn rest
      have hne := splitPlaceholder_ne_nil rest
      simp only [replacePlaceholder, splitPlaceholder, if_pos h]
      cases hm : splitPlaceholder rest with
      | nil => exact absurd hm hne
      | cons p ps =>
        rw [hm] at ih
        simp [intercalateP, ih]
    · have ih := replacePlaceholder_eq_intercalateP fn (d :: rest)
      simp only [replacePlaceholder, splitPlaceholder, if_neg h]
      cases hm : splitPlaceholder (d :: rest) with
      | nil => exact absurd hm (splitPlaceholder_ne_nil (d :: rest))
      | cons p ps =>
        rw [hm] at ih
        rw [intercalateP_cons_head, ← ih]

theorem intercalateP_placeholder_splitPlaceholder :
    ∀ s : List Char, intercalateP placeholder (splitPlaceholder s) = s
  | [] => rfl
  | [c] => rfl
  | c :: d :: rest => by
    by_cases h : c = obrace ∧ d = cbrace
    · have ih := intercalateP_placeholder_splitPlaceholder rest
      have hne := splitPlaceholder_ne_nil rest
      simp only [splitPlaceholder, if_pos h]
      cases hm : splitPlaceholder rest with
      | nil => exact absurd hm hne
      | cons p ps =>
        rw [hm] at ih
        simp only [intercalateP]
        rw [ih]
        simp [placeholder, h.1, h.2]
    · have ih := intercalateP_placeholder_splitPlaceholder (d :: rest)
      simp only [splitPlaceholder, if_neg h]
      cases hm : splitPlaceholder (d :: rest) with
      | nil => exact absurd hm (splitPlaceholder_ne_nil (d :: rest))
      | cons p ps =>
        rw [hm] at ih
        rw [intercalateP_cons_head, ih]

theorem splitPlaceholder_of_not_infix :
    ∀ s : List Char, ¬ placeholder <:+: s → splitPlaceholder s = [s]
  | [], _ => rfl
  | [c], _ => rfl
  | c :: d :: rest, hinf => by
    by_cases h : c = obrace ∧ d = cbrace
    · exact absurd ⟨[], rest, by simp [placeholder, h.1, h.2]⟩ hinf
    · have htail : ¬ placeholder <:+: (d :: rest) := by
        intro hi
        obtain ⟨u, v, huv⟩ := hi
        exact hinf ⟨c :: u, v, by simp [← huv]⟩
      have ih := splitPlaceholder_of_not_infix (d :: rest) htail
      simp only [splitPlaceholder, if_neg h]
      rw [ih]

theorem osRemove_openFds (st : OSState) (name : List Char) (st2 : OSState)
    (h : osRemove st name = Except.ok st2) : st2.openFds = st.openFds := by
  unfold osRemove at h
  by_cases h1 : (lookupFile st.files name).isSome
  · by_cases h2 : name ∈ st.denyRemove
    · simp [h1, h2] at h
    · simp [h1, h2] at h
      rw [← h]
  · simp [h1] at h

theorem editorCleanup_of_not_mem (oshandle : Nat) (filename : List Char)
    (st : OSState) (h : oshandle ∉ st.openFds) :
    editorCleanup oshandle filename st
      = (st, some PyError.badFileDescriptor) := by
  unfold editorCleanup osClose
  simp [h]

theorem editorCleanup_ok_not_mem (oshandle : Nat) (filename : List Char)
    (st : OSState) (h : (editorCleanup oshandle filename st).2 = none) :
    oshandle ∉ (editorCleanup oshandle filename st).1.openFds := by
  unfold editorCleanup at h ⊢
  split
  · rename_i e heq
    rw [heq] at h
    simp at h
  · rename_i st1 heq
    have h1 : st1.openFds = st.openFds.erase oshandle := by
      unfold osClose at heq
      by_cases hm : oshandle ∈ st.openFds
      · simp [hm] at heq
        rw [← heq]
      · simp [hm] at heq
    have h2 : oshandle ∉ st1.openFds := by
      rw [h1]
      exact Finset.not_mem_erase _ _
    split
    · rename_i st2 heq2
      simp
      rw [osRemove_openFds st1 filename st2 heq2, h1]
      exact Finset.not_mem_erase _ _
    · simpa using h2
    · simpa using h2

theorem editorCleanup_permission_denied (oshandle : Nat) (filename : List Char)
    (st : OSState) (hopen : oshandle ∈ st.openFds)
    (hfile : (lookupFile st.files filename).isSome)
    (hdeny : filename ∈ st.denyRemove) :
    (editorCleanup oshandle filename st).2
      = some (PyError.commandError "Failed to delete tempfile...") := by
  unfold editorCleanup osClose osRemove
  simp [hopen, hfile, hdeny]

theorem on_editor_closed_success (oshandle : Nat) (filename : List Char)
    (st : SessionState) (content : List Char)
    (hvalid : st.elem.isNull = false)
    (hfile : lookupFile st.os.files filename = some content) :
    on_editor_closed oshandle filename 0 ExitStatus.normalExit st
      = ({ os := (editorCleanup oshandle filename st.os).1,
           elem := { st.elem with value := content } },
         (editorCleanup oshandle filename st.os).2) := by
  unfold on_editor_closed
  simp [hvalid, hfile, evaluateJSSetValue, joinLines_readlines, readFullContents,
        jsStringBody_javascript_escape]

/-- Claim C1: the claim says the temporary file is deleted exactly once
before the callback returns for every terminal state.  Evaluation at the
failing input: the editor exits with code 2 (terminal state
Completed-nonzero), the element is still valid, yet `on_editor_closed`
raises the abnormal-exit `CommandError` before any cleanup: the session
state is unchanged, the temp file still exists and the descriptor is still
open after the callback returns. -/
theorem on_editor_closed_nonzero_exit_skips_cleanup :
    on_editor_closed 5 fnA 2 ExitStatus.normalExit sessA
      = (sessA, some (PyError.commandError
          "Editor did quit abnormally (status 2)!"))
    ∧ lookupFile
        ((on_editor_closed 5 fnA 2 ExitStatus.normalExit sessA).1).os.files fnA
        = some tA
    ∧ 5 ∈ ((on_editor_closed 5 fnA 2 ExitStatus.normalExit sessA).1).os.openFds := by
  refine ⟨?_, ?_, ?_⟩ <;> decide

/-- Claim C2: the claim says a crash exit status leads to cleanup and no
additional user-facing error regardless of the exit code.  Evaluation at
the failing input: a crash accompanied by exit code 1 hits the
`exitcode != 0` branch first, so the callback raises the abnormal-exit
`CommandError` (a duplicate user-facing report of the crash) and performs
no cleanup: the file and descriptor survive the callback. -/
theorem on_editor_closed_crash_nonzero_raises :
    on_editor_closed 5 fnA 1 ExitStatus.crashExit sessA
      = (sessA, some (PyError.commandError
          "Editor did quit abnormally (status 1)!"))
    ∧ lookupFile sessA.os.files fnA = some tA
    ∧ 5 ∈ sessA.os.openFds := by
  refine ⟨?_, ?_, ?_⟩ <;> decide

/-- Claim C3 counterexample: cleanup is not idempotent.  On a session whose
first `_editor_cleanup` call succeeds, the second call is not a no-op: it
raises the `OSError` from `os.close` on the already-closed descriptor. -/
theorem editorCleanup_not_idempotent_cex :
    (editorCleanup 5 fnA osA).2 = none
    ∧ (editorCleanup 5 fnA (editorCleanup 5 fnA osA).1).2
        = some PyError.badFileDescriptor := by
  refine ⟨?_, ?_⟩ <;> decide

/-- Claim C3 (amended): after a first `_editor_cleanup` call that completed
without an exception, a second call on the same OS handle and filename is
not a no-op: `os.close` raises an `OSError` on the already-closed
descriptor (before `os.remove` is even attempted), and the state is left
unchanged by the second call. -/
theorem editorCleanup_second_call_raises (oshandle : Nat) (filename : List Char)
    (st : OSState) (h : (editorCleanup oshandle filename st).2 = none) :
    editorCleanup oshandle filename (editorCleanup oshandle filename st).1
      = ((editorCleanup oshandle filename st).1,
         some PyError.badFileDescriptor) :=
  editorCleanup_of_not_mem _ _ _ (editorCleanup_ok_not_mem _ _ _ h)

/-- Witness for the amended claim C3 at a concrete session. -/
theorem editorCleanup_second_call_raises_witness :
    editorCleanup 5 fnA (editorCleanup 5 fnA osA).1
      = ((editorCleanup 5 fnA osA).1, some PyError.badFileDescriptor) :=
  editorCleanup_second_call_raises 5 fnA osA (by decide)

/-- Claim C4: when no editable element is focused, `editor()` raises the
no-element-focused `CommandError` and performs no side effects: the OS
state (files and descriptors) is returned unchanged and no process is
spawned. -/
theorem editor_no_element_focused_atomic (writeFails : Bool)
    (oshandle wfd : Nat) (filename : List Char)
    (editorCfg : List (List Char)) (st : OSState) :
    editor none writeFails oshandle wfd filename editorCfg st
      = { os := st, spawned := none
          err := some (PyError.commandError "No editable element focused!") } :=
  rfl

/-- Claim C5: round-trip of the temp-file content through the write-back.
If `content` is the content of the temp file when the editor exits with
code 0 and a normal exit status, and the element is still valid, then the
escaped text injected by `on_editor_closed` reconstitutes exactly
`content` as the element's text (`javascript_escape` modelled from the
spec, `webelem` not being part of the reviewed source). -/
theorem on_editor_closed_roundtrip (oshandle : Nat) (filename : List Char)
    (st : SessionState) (content : List Char)
    (hvalid : st.elem.isNull = false)
    (hfile : lookupFile st.os.files filename = some content) :
    ((on_editor_closed oshandle filename 0 ExitStatus.normalExit st).1).elem.value
      = content := by
  rw [on_editor_closed_success oshandle filename st content hvalid hfile]

/-- Witness for claim C5: the sample content contains a single quote, a
backslash and a newline, and survives the round-trip unchanged. -/
theorem on_editor_closed_roundtrip_witness :
    sessA.elem.isNull = false
    ∧ lookupFile sessA.os.files fnA = some tA
    ∧ ((on_editor_closed 5 fnA 0 ExitStatus.normalExit sessA).1).elem.value = tA :=
  ⟨rfl, by decide, on_editor_closed_roundtrip 5 fnA sessA tA rfl (by decide)⟩

/-- Claim C6 counterexample: at a concrete input where the temp-file write
fails, the failure propagates and no process is spawned, but the OS-level
descriptor obtained from `mkstemp` is NOT released: it is still open after
`editor()` aborts, refuting the claim's "still released (closed)" part. -/
theorem editor_write_failure_fd_left_open_cex :
    (editor (some tA) true 5 6 fnA [['v', 'i'], placeholder] osEmpty).err
        = some PyError.writeFailure
    ∧ (editor (some tA) true 5 6 fnA [['v', 'i'], placeholder] osEmpty).spawned
        = none
    ∧ 5 ∈ (editor (some tA) true 5 6 fnA [['v', 'i'], placeholder] osEmpty).os.openFds := by
  refine ⟨?_, ?_, ?_⟩ <;> decide

/-- Claim C6 (amended): when the element's initial text is non-empty it is
written to the temp file (as its full content); if the write fails, the
failure propagates as an error before any process is spawned, and the
`with`-statement closes the write handle it opened — but the OS-level
descriptor obtained from `mkstemp` is not closed on this path: it remains
open. -/
theorem editor_write_failure_behavior (text : List Char)
    (oshandle wfd : Nat) (filename : List Char)
    (editorCfg : List (List Char)) (st : OSState)
    (htext : text ≠ []) (hwfd : wfd ≠ oshandle) :
    lookupFile
        (editor (some text) false oshandle wfd filename editorCfg st).os.files
        filename = some text
    ∧ (editor (some text) true oshandle wfd filename editorCfg st).err
        = some PyError.writeFailure
    ∧ (editor (some text) true oshandle wfd filename editorCfg st).spawned
        = none
    ∧ oshandle ∈
        (editor (some text) true oshandle wfd filename editorCfg st).os.openFds
    ∧ wfd ∉
        (editor (some text) true oshandle wfd filename editorCfg st).os.openFds := by
  have hos : oshandle ≠ wfd := fun e => hwfd e.symm
  refine ⟨?_, ?_, ?_, ?_, ?_⟩
  · cases editorCfg with
    | nil => simp [editor, htext, writeFileContent, mkstempEffect, lookupFile]
    | cons exe args =>
        simp [editor, htext, writeFileContent, mkstempEffect, lookupFile]
  · simp [editor, htext]
  · simp [editor, htext]
  · simp [editor, htext, mkstempEffect, Finset.mem_erase, Finset.mem_insert, hos]
  · simp [editor, htext, mkstempEffect]

/-- Witness for the amended claim C6 at a concrete input. -/
theorem editor_write_failure_behavior_witness :
    tA ≠ [] ∧ (6 : Nat) ≠ 5
    ∧ 5 ∈ (editor (some tA) true 5 6 fnA [] osEmpty).os.openFds :=
  ⟨by decide, by decide,
   (editor_write_failure_behavior tA 5 6 fnA [] osEmpty (by decide)
     (by decide)).2.2.2.1⟩

/-- Claim C7 counterexample: in the error callback, a permission-denied
deletion does not leave the primary outcome in place: `_editor_cleanup`
runs before the process-error report, so its `CommandError` is the
exception that escapes `on_editor_error` and the process-error message
("The process crashed.", error kind 1) is never reported — the cleanup
failure suppresses the primary outcome instead of following it. -/
theorem on_editor_error_cleanup_failure_suppresses_report_cex :
    (on_editor_error 5 fnA 1 osDeny).2
      = some (PyError.commandError "Failed to delete tempfile...")
    ∧ (on_editor_error 5 fnA 1 osDeny).2
      ≠ some (PyError.commandError
          "Error while calling editor: The process crashed.") := by
  refine ⟨?_, ?_⟩ <;> decide

/-- Claim C7 (amended): when temp-file deletion is denied during cleanup,
on the success path the cleanup-failed error is raised only after the
element write-back has been performed and does not reverse it; in the
error callback, however, cleanup runs before the process-error report, so
the cleanup-failed error replaces (suppresses) the process-error message. -/
theorem cleanup_failure_ordering (oshandle : Nat) (filename : List Char)
    (st : SessionState) (content : List Char) (error : Nat)
    (hvalid : st.elem.isNull = false)
    (hfile : lookupFile st.os.files filename = some content)
    (hdeny : filename ∈ st.os.denyRemove)
    (hopen : oshandle ∈ st.os.openFds) :
    ((on_editor_closed oshandle filename 0 ExitStatus.normalExit st).1).elem.value
        = content
    ∧ (on_editor_closed oshandle filename 0 ExitStatus.normalExit st).2
        = some (PyError.commandError "Failed to delete tempfile...")
    ∧ (on_editor_error oshandle filename error st.os).2
        = some (PyError.commandError "Failed to delete tempfile...") := by
  have hperm := editorCleanup_permission_denied oshandle filename st.os hopen
      (by rw [hfile]; rfl) hdeny
  refine ⟨?_, ?_, ?_⟩
  · rw [on_editor_closed_success oshandle filename st content hvalid hfile]
  · rw [on_editor_closed_success oshandle filename st content hvalid hfile]
    exact hperm
  · unfold on_editor_error
    split
    · rename_i st1 e heq
      rw [heq] at hperm
      simp at hperm
      simp [hperm]
    · rename_i st1 heq
      rw [heq] at hperm
      simp at hperm

/-- Witness for the amended claim C7 at a concrete session. -/
theorem cleanup_failure_ordering_witness :
    ((on_editor_closed 5 fnA 0 ExitStatus.normalExit sessDeny).1).elem.value = tA
    ∧ (on_editor_error 5 fnA 0 osDeny).2
        = some (PyError.commandError "Failed to delete tempfile...") :=
  ⟨(cleanup_failure_ordering 5 fnA sessDeny tA 0 rfl (by decide) (by decide)
      (by decide)).1,
   (cleanup_failure_ordering 5 fnA sessDeny tA 0 rfl (by decide) (by decide)
      (by decide)).2.2⟩

/-- Claim C8: when `editor()` launches the process, the argument list is
the configured list with every occurrence of the placeholder token
replaced by the temp-file path in every argument: the substitution equals
joining the placeholder-decomposition of each argument with the path
(every occurrence replaced), and an argument without the placeholder is
passed through unchanged. -/
theorem editor_placeholder_substitution (text fn exe : List Char)
    (argTemplates : List (List Char)) (oshandle wfd : Nat) (st : OSState)
    (arg : List Char) (hnp : ¬ placeholder <:+: arg) :
    (editor (some text) false oshandle wfd fn (exe :: argTemplates) st).spawned
      = some (exe, argTemplates.map (replacePlaceholder fn))
    ∧ replacePlaceholder fn arg = arg
    ∧ (∀ s : List Char,
        replacePlaceholder fn s = intercalateP fn (splitPlaceholder s))
    ∧ (∀ s : List Char, intercalateP placeholder (splitPlaceholder s) = s) := by
  refine ⟨?_, ?_, replacePlaceholder_eq_intercalateP fn,
      intercalateP_placeholder_splitPlaceholder⟩
  · by_cases h : text = [] <;> simp [editor, h]
  · rw [replacePlaceholder_eq_intercalateP, splitPlaceholder_of_not_infix arg hnp]
    rfl

/-- Witness for claim C8 at a concrete configuration. -/
theorem editor_placeholder_substitution_witness :
    ¬ placeholder <:+: ['-', 'f']
    ∧ (editor (some tA) false 5 6 fnA [['v', 'i'], ['-', 'f'], placeholder]
        osEmpty).spawned
      = some (['v', 'i'], [['-', 'f'], fnA])
    ∧ replacePlaceholder fnA ['-', 'f'] = ['-', 'f'] := by
  have h := editor_placeholder_substitution tA fnA ['v', 'i']
      [['-', 'f'], placeholder] 5 6 osEmpty ['-', 'f'] (by decide)
  exact ⟨by decide, h.1, h.2.1⟩

/-- Claim C9: in `on_editor_error`, cleanup's state effects always happen
before any error message is produced, for every error value: the post-state
is always cleanup's post-state, and an exception raised by cleanup
propagates in place of any message.  The message lookup is total exactly
for the six enumerated `QProcess` error kinds (the enum values 0..5); for
any other error value the lookup fails with `KeyError` after cleanup has
already run. -/
theorem on_editor_error_cleanup_before_message (oshandle : Nat)
    (filename : List Char) (error : Nat) (st : OSState) :
    (on_editor_error oshandle filename error st).1
        = (editorCleanup oshandle filename st).1
    ∧ ((qprocessMessage error).isSome ↔ error < 6)
    ∧ (∀ e, (editorCleanup oshandle filename st).2 = some e →
        (on_editor_error oshandle filename error st).2 = some e)
    ∧ ((editorCleanup oshandle filename st).2 = none → 6 ≤ error →
        (on_editor_error oshandle filename error st).2
          = some PyError.keyError) := by
  have hmsg : (qprocessMessage error).isSome ↔ error < 6 := by
    rcases Nat.lt_or_ge error 6 with h | h
    · interval_cases error <;> simp [qprocessMessage]
    · have h0 : error ≠ 0 := by omega
      have h1 : error ≠ 1 := by omega
      have h2 : error ≠ 2 := by omega
      have h3 : error ≠ 3 := by omega
      have h4 : error ≠ 4 := by omega
      have h5 : error ≠ 5 := by omega
      simp [qprocessMessage, h0, h1, h2, h3, h4, h5]
      omega
  refine ⟨?_, hmsg, ?_, ?_⟩
  · unfold on_editor_error
    split
    · rename_i st1 e heq
      rw [heq]
    · rename_i st1 heq
      rw [heq]
      cases hq : qprocessMessage error <;> simp
  · intro e he
    unfold on_editor_error
    split
    · rename_i st1 e2 heq
      rw [heq] at he
      simp at he
      simp [he]
    · rename_i st1 heq
      rw [heq] at he
      simp at he
  · intro hok hge
    have hnone : qprocessMessage error = none := by
      cases hq : qprocessMessage error with
      | none => rfl
      | some m =>
        have hsome : (qprocessMessage error).isSome := by rw [hq]; rfl
        rw [hmsg] at hsome
        omega
    unfold on_editor_error
    split
    · rename_i st1 e2 heq
      rw [heq] at hok
      simp at hok
    · rename_i st1 heq
      rw [hnone]

/-- Witness for claim C9 at a concrete state and the out-of-range error
value 7: cleanup's state effects happen, then the lookup fails. -/
theorem on_editor_error_cleanup_before_message_witness :
    (on_editor_error 5 fnA 7 osA).1 = (editorCleanup 5 fnA osA).1
    ∧ (on_editor_error 5 fnA 7 osA).2 = some PyError.keyError :=
  ⟨(on_editor_error_cleanup_before_message 5 fnA 7 osA).1,
   (on_editor_error_cleanup_before_message 5 fnA 7 osA).2.2.2 (by decide)
     (by decide)⟩

/-- Claim C10: the read-back step `''.join(f.readlines())` is equivalent to
reading the file's entire contents as one string: for every decoded file
content, including the empty file, joining the kept-newline lines
reconstitutes the content exactly, newlines and all characters preserved. -/
theorem readlines_join_refines_read (s : List Char) :
    joinLines (readlines s) = readFullContents s :=
  joinLines_readlines s
